import Mathlib

/-!
Shallow embedding of `src/nfs-mountpoint-check.c` (LCOGT/nfs-mountpoint-check).

The program forks a worker that probes an NFS mountpoint (a stat probe and a
readdir probe), supervises it with a SIGALRM-driven hard timeout, classifies
the worker's termination, and translates the classified code through a
user-configurable 256-entry exit-code map.

System calls are modelled as oracles: `Option Nat` where `none` is success and
`some e` is failure with errno `e`.  Machine integers are `Int`/`Nat` with
explicit bounds where the C code depends on them.
-/

namespace NfsCheck

/-! ### Platform constants (Linux x86-64 values used by the source) -/

/-- errno EINTR: interrupted system call. -/
def EINTR : Nat := 4

/-- errno EINVAL: invalid argument; the exit code for all CLI usage errors. -/
def EINVAL : Nat := 22

/-- errno ETIMEDOUT, reused by `wait_for_child` as the TimedOut sentinel. -/
def ETIMEDOUT : Nat := 110

/-- Signal number of SIGKILL. -/
def SIGKILL : Nat := 9

/-- `#define ERRNO_MAX 256` (line 28): size of `exitcode_map`. -/
def ERRNO_MAX : Nat := 256

/-- `static const int EUNKNOWN = 255` (line 34): the Indeterminate sentinel. -/
def EUNKNOWN : Nat := 255

/-- INT_MAX for 32-bit int. -/
def INT_MAX : Int := 2147483647

/-- INT_MIN for 32-bit int. -/
def INT_MIN : Int := -2147483648

/-- LONG_MAX for 64-bit long (strtol clamps here on overflow). -/
def LONG_MAX : Int := 9223372036854775807

/-- LONG_MIN for 64-bit long. -/
def LONG_MIN : Int := -9223372036854775808

/-- `static const int CHECK_METHOD_STAT = 0x1` (line 67). -/
def CHECK_METHOD_STAT : Nat := 1

/-- `static const int CHECK_METHOD_READDIR = 0x2` (line 68). -/
def CHECK_METHOD_READDIR : Nat := 2

/-! ### Probes -/

/-- Result of one system call in the embedding: `none` = success,
`some e` = failure with `errno = e`. -/
abbrev SysRes := Option Nat

/-- `check_mountpoint_stat` (lines 136-166): open the path, `fstat` the fd,
close the fd.  Each step that fails returns its saved errno; on the `fstat`
failure path the source additionally calls `close(fd)` and discards its
result.  Returns 0 on success. -/
def check_mountpoint_stat (openRes fstatRes closeRes : SysRes) : Nat :=
  match openRes with
  | some errsave => errsave
  | none =>
    match fstatRes with
    | some errsave => errsave
    | none =>
      match closeRes with
      | some errsave => errsave
      | none => 0

/-- The system-call steps of the stat probe, for tracking which steps run. -/
inductive StatStep
  | openStep
  | fstatStep
  | closeStep
deriving DecidableEq, Repr

/-- `check_mountpoint_stat`, instrumented with the list of system calls the
source actually performs on each path.  On open failure only `open` ran; on
`fstat` failure the source still calls `close(fd)` (line 153) before
returning the `fstat` errno; on success and on close failure all three ran. -/
def check_mountpoint_stat_steps (openRes fstatRes closeRes : SysRes) :
    Nat × List StatStep :=
  match openRes with
  | some errsave => (errsave, [StatStep.openStep])
  | none =>
    match fstatRes with
    | some errsave =>
      (errsave, [StatStep.openStep, StatStep.fstatStep, StatStep.closeStep])
    | none =>
      match closeRes with
      | some errsave =>
        (errsave, [StatStep.openStep, StatStep.fstatStep, StatStep.closeStep])
      | none => (0, [StatStep.openStep, StatStep.fstatStep, StatStep.closeStep])

/-- `check_mountpoint_readdir` (lines 88-116): `opendir`, `readdir` one entry,
`closedir`.  Each failing step returns its saved errno (on `readdir` failure
the source calls `closedir` and discards its result); 0 on success. -/
def check_mountpoint_readdir (opendirRes readdirRes closedirRes : SysRes) : Nat :=
  match opendirRes with
  | some errsave => errsave
  | none =>
    match readdirRes with
    | some errsave => errsave
    | none =>
      match closedirRes with
      | some errsave => errsave
      | none => 0

/-! ### Probe orchestrator -/

/-- The two probe kinds, for recording which probes a run invokes. -/
inductive ProbeKind
  | stat
  | readdir
deriving DecidableEq, Repr

/-- The filesystem oracle for one run: outcomes of the six possible system
calls (three per probe), fixed by the target path and environment. -/
structure ProbeEnv where
  openRes : SysRes
  fstatRes : SysRes
  closeRes : SysRes
  opendirRes : SysRes
  readdirRes : SysRes
  closedirRes : SysRes

/-- `check_mountpoint` (lines 184-209): run the stat probe when selected in the
bitmask; if it fails return that code immediately; otherwise run the readdir
probe when selected and return its code; return 0 when nothing failed.
The second component records which probes were invoked, in order. -/
def check_mountpoint (check_method : Nat) (env : ProbeEnv) : Nat × List ProbeKind :=
  if check_method &&& CHECK_METHOD_STAT ≠ 0 then
    let ret := check_mountpoint_stat env.openRes env.fstatRes env.closeRes
    if ret ≠ 0 then
      (ret, [ProbeKind.stat])
    else
      if check_method &&& CHECK_METHOD_READDIR ≠ 0 then
        let ret2 := check_mountpoint_readdir env.opendirRes env.readdirRes env.closedirRes
        (ret2, [ProbeKind.stat, ProbeKind.readdir])
      else
        (ret, [ProbeKind.stat])
  else
    if check_method &&& CHECK_METHOD_READDIR ≠ 0 then
      let ret2 := check_mountpoint_readdir env.opendirRes env.readdirRes env.closedirRes
      (ret2, [ProbeKind.readdir])
    else
      (0, [])

/-! ### Supervisor: wait status classification -/

/-- What `waitpid` can report about the child, mirroring the mutually
exclusive `WIFEXITED` / `WIFSIGNALED` / `WIFSTOPPED` / `WIFCONTINUED` cases. -/
inductive WaitStatus
  | exited (code : Nat)
  | signaled (sig : Nat)
  | stopped (sig : Nat)
  | continued
deriving DecidableEq, Repr

/-- waitpid guarantees the normal-exit code it reports is 8 bits
(`WEXITSTATUS` masks with 0xff); the other reports carry no constraint the
classification depends on. -/
def StatusWF : WaitStatus → Prop
  | WaitStatus.exited code => code < 256
  | _ => True

/-- The classification at the end of `wait_for_child` (lines 258-301):
normal exit returns the exit status; death by SIGKILL returns ETIMEDOUT;
death by any other signal, and stopped/continued reports, return EUNKNOWN. -/
def classify_status (st : WaitStatus) : Nat :=
  match st with
  | WaitStatus.exited code => code
  | WaitStatus.signaled sig => if sig = SIGKILL then ETIMEDOUT else EUNKNOWN
  | WaitStatus.stopped _ => EUNKNOWN
  | WaitStatus.continued => EUNKNOWN

/-! ### Supervisor: the waitpid retry loop -/

/-- One attempt of `waitpid(child, &status, 0)`: success with a status, or
failure with an errno. -/
inductive WaitpidResult
  | ok (st : WaitStatus)
  | fail (e : Nat)
deriving DecidableEq, Repr

/-- Observable supervisor events after the wait loop finishes. -/
inductive SupEvent
  | disarm
  | classified (code : Nat)
  | fatalExit (code : Nat)
deriving DecidableEq, Repr

/-- The `while (1)` loop of `wait_for_child` (lines 236-255) run against a
trace of successive `waitpid` results: an EINTR failure retries the wait; any
other failure is `exit(1)`; a success breaks out, after which `alarm(0)` runs
and the status is classified.  `none` means the trace ended with the
supervisor still blocked in `waitpid`. -/
def wait_for_child_trace : List WaitpidResult → Option (List SupEvent)
  | [] => none
  | WaitpidResult.fail e :: rest =>
    if e = EINTR then wait_for_child_trace rest
    else some [SupEvent.fatalExit 1]
  | WaitpidResult.ok st :: _ =>
    some [SupEvent.disarm, SupEvent.classified (classify_status st)]

/-! ### Timeout guard: the SIGALRM handler -/

/-- How the handler finishes: it returns to the interrupted code, or the whole
process terminates via `_exit`. -/
inductive HandlerOutcome
  | returned
  | exited (code : Nat)
deriving DecidableEq, Repr

/-- `handle_sigalrm` (lines 313-330).  Inputs: the recorded child pid and
whether `kill(child, SIGKILL)` would succeed.  Output: whether `kill` was
invoked at all, and how the handler finishes (`_exit(EUNKNOWN)` when `kill`
fails; otherwise the handler just returns). -/
def handle_sigalrm (child : Int) (killOk : Bool) : Bool × HandlerOutcome :=
  if child ≤ 0 then
    (false, HandlerOutcome.returned)
  else
    if killOk then
      (true, HandlerOutcome.returned)
    else
      (true, HandlerOutcome.exited EUNKNOWN)

/-! ### Exit-code translation -/

/-- The initial `exitcode_map` (lines 413-415): identity on every index. -/
def exitcode_map_init : Nat → Nat := fun i => i

/-- One `-i` (ignore-errno) option (lines 441-444): `exitcode_map[tmp] = 0`. -/
def apply_ignore (m : Nat → Nat) (c : Nat) : Nat → Nat :=
  fun i => if i = c then 0 else m i

/-- The `exitcode_map` after processing the `-i` options in command-line
order. -/
def build_exitcode_map (igns : List Nat) : Nat → Nat :=
  igns.foldl apply_ignore exitcode_map_init

/-- The C array write `exitcode_map[i] = v` on the 256-entry array, made
explicit about bounds: defined (`some`) exactly when `0 ≤ i < ERRNO_MAX`,
undefined behaviour (`none`) otherwise.  The source performs this write with
`i` taken directly from `safe_atoi` with no bounds check. -/
def exitcode_map_write (m : Fin ERRNO_MAX → Nat) (i : Int) (v : Nat) :
    Option (Fin ERRNO_MAX → Nat) :=
  if h : 0 ≤ i ∧ i < (ERRNO_MAX : Int) then
    some (Function.update m ⟨i.toNat, by unfold ERRNO_MAX at *; omega⟩ v)
  else
    none

/-- The supervised pipeline for a normally exiting worker: the worker runs
`check_mountpoint` and calls `exit(ret)` (line 549), `waitpid` reports the
low 8 bits, `wait_for_child` classifies, and `main` exits with
`exitcode_map[ret]` (line 561).  The second component is the probe trace. -/
def run_supervised (igns : List Nat) (check_method : Nat) (env : ProbeEnv) :
    Nat × List ProbeKind :=
  let r := check_mountpoint check_method env
  (build_exitcode_map igns (classify_status (WaitStatus.exited (r.1 % 256))), r.2)

/-! ### CLI parsing: safe_atoi (via strtol) and parse_check_method -/

/-- C `isspace` in the default locale, as `strtol` skips it. -/
def c_isspace (c : Char) : Bool :=
  c = ' ' || c = '\t' || c = '\n' || c = '\x0b' || c = '\x0c' || c = '\r'

/-- Numeric value of a decimal digit string. -/
def digitsVal (ds : List Char) : Nat :=
  ds.foldl (fun acc c => acc * 10 + (c.toNat - '0'.toNat)) 0

/-- Clamp a mathematical integer to the `long` range, reporting ERANGE. -/
def clampLong (v : Int) : Int × Bool :=
  if v > LONG_MAX then (LONG_MAX, true)
  else if v < LONG_MIN then (LONG_MIN, true)
  else (v, false)

/-- What `strtol(s, &end, 10)` yields on a string. -/
structure StrtolResult where
  value : Int
  consumed : Bool
  erange : Bool
deriving DecidableEq, Repr

/-- The sign factor given by an optional leading sign character. -/
def strtolSign (t : List Char) : Int :=
  match t with
  | '-' :: _ => -1
  | _ => 1

/-- The rest of the input after an optional leading sign character. -/
def strtolBody (t : List Char) : List Char :=
  match t with
  | '-' :: r => r
  | '+' :: r => r
  | _ => t

/-- Assemble the strtol result from the sign and the digit run: no digits
means nothing was consumed; otherwise the signed value clamps to the long
range, reporting ERANGE if clamping happened. -/
def strtolFinish (sign : Int) (ds : List Char) : StrtolResult :=
  if ds.isEmpty then
    { value := 0, consumed := false, erange := false }
  else
    let r := clampLong (sign * (digitsVal ds : Int))
    { value := r.1, consumed := true, erange := r.2 }

/-- `strtol` base 10: skip whitespace, take an optional sign, take decimal
digits.  `consumed` is `s != end`, i.e. at least one digit was taken; on
overflow the value clamps to LONG_MAX or LONG_MIN with `erange` set. -/
def strtol10 (s : List Char) : StrtolResult :=
  strtolFinish (strtolSign (s.dropWhile c_isspace))
    ((strtolBody (s.dropWhile c_isspace)).takeWhile Char.isDigit)

/-- `safe_atoi` (lines 379-391): accept when `strtol` consumed input, did not
report ERANGE, and the value fits in `int`; otherwise print an error and
`exit(EINVAL)` (modelled as `Except.error EINVAL`). -/
def safe_atoi (s : List Char) : Except Nat Int :=
  if (strtol10 s).consumed = true ∧ (strtol10 s).erange = false ∧
      INT_MIN ≤ (strtol10 s).value ∧ (strtol10 s).value ≤ INT_MAX then
    Except.ok (strtol10 s).value
  else
    Except.error EINVAL

/-- `int timeout = 2` (line 400): the default timeout in seconds. -/
def timeout_default : Int := 2

/-- Split on a delimiter, keeping empty pieces (one split point per
occurrence). -/
def splitCommas : List Char → List Char → List (List Char)
  | [], acc => [acc.reverse]
  | c :: rest, acc =>
    if c = ',' then acc.reverse :: splitCommas rest []
    else splitCommas rest (c :: acc)

/-- The token sequence `strtok(s, ",")` produces: split on commas and drop
empty pieces (strtok skips over runs of delimiters and never yields an empty
token). -/
def strtokCommas (s : List Char) : List (List Char) :=
  (splitCommas s []).filter (fun t => t ≠ [])

/-- The loop body of `parse_check_method`: each token is compared
case-insensitively with "stat" and "readdir" and ORs the matching bit into
the accumulator; an unknown token is `exit(EINVAL)`. -/
def parse_method_tokens : List (List Char) → Nat → Except Nat Nat
  | [], acc => Except.ok acc
  | tok :: rest, acc =>
    if tok.map Char.toLower = String.toList "stat" then
      parse_method_tokens rest (acc ||| CHECK_METHOD_STAT)
    else if tok.map Char.toLower = String.toList "readdir" then
      parse_method_tokens rest (acc ||| CHECK_METHOD_READDIR)
    else
      Except.error EINVAL

/-- `parse_check_method` (lines 350-373): tokenize the `-m` argument on commas
with `strtok` and fold the tokens into a bitmask starting from 0. -/
def parse_check_method (s : List Char) : Except Nat Nat :=
  parse_method_tokens (strtokCommas s) 0

/-- The default check-method bitmask installed when `-m` was not given
(lines 473-477): both probes. -/
def default_check_method : Nat := CHECK_METHOD_STAT ||| CHECK_METHOD_READDIR

/-! ### Vocabulary for the sentinel-distinctness claim -/

/-- A system-defined failure number, in the range [1,254] the spec assigns to
ordinary `Failure(code)` outcomes (real Linux errnos lie well inside it, and
ETIMEDOUT = 110 is among them). -/
def isErrno (e : Nat) : Prop := 1 ≤ e ∧ e ≤ 254

/-- A system-call oracle is well formed when any failure it reports carries a
genuine errno. -/
def SysWF (r : SysRes) : Prop := ∀ e, r = some e → isErrno e

/-- `c` is a value the stat probe can return as the worker's exit status,
under some well-formed outcome of its three system calls. -/
def statCanReturn (c : Nat) : Prop :=
  ∃ o f cl, SysWF o ∧ SysWF f ∧ SysWF cl ∧ check_mountpoint_stat o f cl = c

/-- `c` is a value the readdir probe can return as the worker's exit status,
under some well-formed outcome of its three system calls. -/
def readdirCanReturn (c : Nat) : Prop :=
  ∃ o r cl, SysWF o ∧ SysWF r ∧ SysWF cl ∧ check_mountpoint_readdir o r cl = c

/-! ### Helper lemmas -/

/-- The readdir probe has the same value shape as the stat probe on its three
system-call oracles. -/
theorem readdir_eq_stat_shape (o r cl : SysRes) :
    check_mountpoint_readdir o r cl = check_mountpoint_stat o r cl := rfl

/-- A nonzero value of the stat probe is the errno of one of its three system
calls, hence at most 254 under well-formed oracles. -/
theorem probe3_return_bound (o f cl : SysRes) (c : Nat)
    (wo : SysWF o) (wf : SysWF f) (wcl : SysWF cl)
    (heq : check_mountpoint_stat o f cl = c) (hc : c ≠ 0) : 1 ≤ c ∧ c ≤ 254 := by
  cases o with
  | some e =>
    simp [check_mountpoint_stat] at heq
    subst heq
    exact wo e rfl
  | none =>
    cases f with
    | some e =>
      simp [check_mountpoint_stat] at heq
      subst heq
      exact wf e rfl
    | none =>
      cases cl with
      | some e =>
        simp [check_mountpoint_stat] at heq
        subst heq
        exact wcl e rfl
      | none =>
        simp [check_mountpoint_stat] at heq
        exact absurd heq.symm hc

/-- A classification in the wait-loop event list pins down the whole event
list (disarm first, then the classification) and comes from a genuinely
observed termination in the waitpid trace. -/
theorem wait_trace_classified_sound :
    ∀ (l : List WaitpidResult) (evts : List SupEvent) (c : Nat),
      wait_for_child_trace l = some evts →
      SupEvent.classified c ∈ evts →
      evts = [SupEvent.disarm, SupEvent.classified c] ∧
        ∃ st, WaitpidResult.ok st ∈ l ∧ c = classify_status st
  | [], evts, c, h, _ => by simp [wait_for_child_trace] at h
  | WaitpidResult.fail e :: rest, evts, c, h, hm => by
    by_cases he : e = EINTR
    · rw [wait_for_child_trace, if_pos he] at h
      obtain ⟨h1, st, hst, hc⟩ := wait_trace_classified_sound rest evts c h hm
      exact ⟨h1, st, List.mem_cons_of_mem _ hst, hc⟩
    · rw [wait_for_child_trace, if_neg he] at h
      obtain rfl : [SupEvent.fatalExit 1] = evts := Option.some.inj h
      simp at hm
  | WaitpidResult.ok st :: rest, evts, c, h, hm => by
    rw [wait_for_child_trace] at h
    obtain rfl : [SupEvent.disarm, SupEvent.classified (classify_status st)] = evts :=
      Option.some.inj h
    have hc : c = classify_status st := by simpa using hm
    subst hc
    exact ⟨rfl, st, List.mem_cons_self _ _, rfl⟩

/-- ERANGE in the strtol model only arises together with a clamped value. -/
theorem clampLong_erange (v : Int) :
    (clampLong v).2 = true → (clampLong v).1 = LONG_MAX ∨ (clampLong v).1 = LONG_MIN := by
  unfold clampLong
  split
  · exact fun _ => Or.inl rfl
  · split
    · exact fun _ => Or.inr rfl
    · intro h
      exact absurd h (by simp)

/-- ERANGE forces a clamped value outside the int range, for any sign and
digit run. -/
theorem strtolFinish_erange (sign : Int) (ds : List Char) :
    (strtolFinish sign ds).erange = true →
    ¬ (INT_MIN ≤ (strtolFinish sign ds).value ∧ (strtolFinish sign ds).value ≤ INT_MAX) := by
  unfold strtolFinish
  split
  · intro h
    exact absurd h (by simp)
  · intro h hrange
    rcases clampLong_erange _ h with hv | hv <;>
      rw [show (let r := clampLong (sign * (digitsVal ds : Int));
          ({ value := r.1, consumed := true, erange := r.2 } : StrtolResult)).value =
          (clampLong (sign * (digitsVal ds : Int))).1 from rfl, hv] at hrange <;>
      exact absurd hrange (by decide)

/-- When strtol reports ERANGE, the clamped long value lies outside the int
range, so `safe_atoi`'s int-range test fails anyway. -/
theorem strtol10_erange_out_of_int (s : List Char) :
    (strtol10 s).erange = true →
    ¬ (INT_MIN ≤ (strtol10 s).value ∧ (strtol10 s).value ≤ INT_MAX) :=
  strtolFinish_erange _ _

/-! ### Claim theorems -/

/-- C1: the classification in `wait_for_child` is exactly: normal exit with
status 0 yields 0 (Success); normal exit with nonzero status N yields N
(Failure); termination by SIGKILL — the signal the timeout guard sends —
yields ETIMEDOUT (TimedOut); termination by any other signal, and
stopped/continued reports, yield EUNKNOWN = 255 (Indeterminate). -/
theorem classification_exhaustive :
    EUNKNOWN = 255 ∧
    (∀ code, classify_status (WaitStatus.exited code) = code) ∧
    classify_status (WaitStatus.signaled SIGKILL) = ETIMEDOUT ∧
    (∀ sig, sig ≠ SIGKILL → classify_status (WaitStatus.signaled sig) = EUNKNOWN) ∧
    (∀ sig, classify_status (WaitStatus.stopped sig) = EUNKNOWN) ∧
    classify_status WaitStatus.continued = EUNKNOWN :=
  ⟨rfl, fun _ => rfl, by simp [classify_status],
    fun sig h => by simp [classify_status, h], fun _ => rfl, rfl⟩

/-- Witness for C1 at the concrete non-SIGKILL signal 15 (SIGTERM). -/
theorem classification_exhaustive_witness :
    classify_status (WaitStatus.signaled 15) = EUNKNOWN :=
  classification_exhaustive.2.2.2.1 15 (by decide)

/-- C2: the SIGALRM handler invokes `kill(child, SIGKILL)` if and only if a
worker identity is recorded (`child > 0`); with no identity it returns having
done nothing; and when `kill` itself fails the whole process terminates at
once via `_exit(EUNKNOWN)` (EUNKNOWN = 255). -/
theorem sigalrm_kill_iff :
    ∀ (child : Int) (killOk : Bool),
      ((handle_sigalrm child killOk).1 = true ↔ 0 < child) ∧
      (child ≤ 0 → handle_sigalrm child killOk = (false, HandlerOutcome.returned)) ∧
      (0 < child → killOk = true →
        handle_sigalrm child killOk = (true, HandlerOutcome.returned)) ∧
      (0 < child → killOk = false →
        handle_sigalrm child killOk = (true, HandlerOutcome.exited EUNKNOWN)) := by
  intro child killOk
  by_cases h : child ≤ 0 <;> cases killOk <;>
    refine ⟨?_, ?_, ?_, ?_⟩ <;> simp [handle_sigalrm, h] <;> omega

/-- Witness for C2 at recorded child 1 with a failing kill. -/
theorem sigalrm_kill_iff_witness :
    handle_sigalrm 1 false = (true, HandlerOutcome.exited EUNKNOWN) :=
  (sigalrm_kill_iff 1 false).2.2.2 (by decide) rfl

/-- C3: an EINTR failure of `waitpid` retries the wait; a trace of pure
interruptions never produces a result; and any classification comes from a
genuinely observed termination in the trace, with `alarm(0)` (disarm)
happening unconditionally before it. -/
theorem wait_retry_and_disarm :
    (∀ l, wait_for_child_trace (WaitpidResult.fail EINTR :: l) = wait_for_child_trace l) ∧
    (∀ n, wait_for_child_trace (List.replicate n (WaitpidResult.fail EINTR)) = none) ∧
    (∀ l evts c,
      wait_for_child_trace l = some evts →
      SupEvent.classified c ∈ evts →
      evts = [SupEvent.disarm, SupEvent.classified c] ∧
        ∃ st, WaitpidResult.ok st ∈ l ∧ c = classify_status st) := by
  refine ⟨fun l => by simp [wait_for_child_trace], ?_, wait_trace_classified_sound⟩
  intro n
  induction n with
  | zero => rfl
  | succ n ih => simpa [List.replicate_succ, wait_for_child_trace] using ih

/-- Witness for C3 on a trace with one interruption and then an observed
normal exit with status 0. -/
theorem wait_retry_and_disarm_witness :
    [SupEvent.disarm, SupEvent.classified 0] =
        [SupEvent.disarm, SupEvent.classified 0] ∧
      ∃ st, WaitpidResult.ok st ∈
          [WaitpidResult.fail EINTR, WaitpidResult.ok (WaitStatus.exited 0)] ∧
        0 = classify_status st :=
  wait_retry_and_disarm.2.2
    [WaitpidResult.fail EINTR, WaitpidResult.ok (WaitStatus.exited 0)]
    [SupEvent.disarm, SupEvent.classified 0] 0 rfl (by simp)

/-- C4: with both probes selected, the stat probe runs first; a nonzero stat
result is returned immediately and the readdir probe is not invoked; and the
combined result is 0 exactly when both selected probes returned 0. -/
theorem orchestrator_short_circuit :
    ∀ (m : Nat) (env : ProbeEnv),
      m &&& CHECK_METHOD_STAT ≠ 0 →
      m &&& CHECK_METHOD_READDIR ≠ 0 →
      ((check_mountpoint m env).2.head? = some ProbeKind.stat) ∧
      (check_mountpoint_stat env.openRes env.fstatRes env.closeRes ≠ 0 →
        check_mountpoint m env =
          (check_mountpoint_stat env.openRes env.fstatRes env.closeRes,
            [ProbeKind.stat])) ∧
      ((check_mountpoint m env).1 = 0 ↔
        check_mountpoint_stat env.openRes env.fstatRes env.closeRes = 0 ∧
          check_mountpoint_readdir env.opendirRes env.readdirRes env.closedirRes = 0) := by
  intro m env h1 h2
  by_cases hs : check_mountpoint_stat env.openRes env.fstatRes env.closeRes = 0
  · simp [check_mountpoint, h1, h2, hs]
  · simp [check_mountpoint, h1, h2, hs]

/-- Witness for C4 with method mask 3 and the open call failing with
errno 2 (ENOENT): the stat probe fails and the readdir probe does not run. -/
theorem orchestrator_short_circuit_witness :
    ((check_mountpoint 3 ⟨some 2, none, none, none, none, none⟩).2.head? =
        some ProbeKind.stat) ∧
      (check_mountpoint_stat (some 2) none none ≠ 0 →
        check_mountpoint 3 ⟨some 2, none, none, none, none, none⟩ =
          (check_mountpoint_stat (some 2) none none, [ProbeKind.stat])) ∧
      ((check_mountpoint 3 ⟨some 2, none, none, none, none, none⟩).1 = 0 ↔
        check_mountpoint_stat (some 2) none none = 0 ∧
          check_mountpoint_readdir none none none = 0) :=
  orchestrator_short_circuit 3 ⟨some 2, none, none, none, none, none⟩
    (by decide) (by decide)

/-- C5: appending one `-i c` option makes exactly the runs whose classified
code is `c` exit 0 and leaves every other classified code's final exit value
unchanged; with no options the map is the identity; and the suppression list
never changes which probes run or their order. -/
theorem ignore_suppression :
    ∀ (igns : List Nat) (c ret m : Nat) (env : ProbeEnv),
      (build_exitcode_map (igns ++ [c]) ret =
        if ret = c then 0 else build_exitcode_map igns ret) ∧
      build_exitcode_map [] ret = ret ∧
      (run_supervised (igns ++ [c]) m env).2 = (run_supervised igns m env).2 ∧
      (run_supervised (igns ++ [c]) m env).1 =
        (if classify_status (WaitStatus.exited ((check_mountpoint m env).1 % 256)) = c
          then 0 else (run_supervised igns m env).1) := by
  intro igns c ret m env
  have key : ∀ r, build_exitcode_map (igns ++ [c]) r =
      if r = c then 0 else build_exitcode_map igns r := by
    intro r
    simp [build_exitcode_map, List.foldl_append, apply_ignore]
  exact ⟨key ret, rfl, rfl, key _⟩

/-- C6 counterexample: it is not the case that every nonzero value the stat
probe can return differs from both sentinels — the probe can return exactly
ETIMEDOUT = 110, the TimedOut sentinel, when `open` fails with
`errno = ETIMEDOUT` (a genuine errno in [1,254]). -/
theorem sentinel_collision_counterexample :
    ¬ (∀ c, statCanReturn c → c ≠ 0 → c ≠ ETIMEDOUT ∧ c ≠ EUNKNOWN) := by
  intro hall
  have hwf : SysWF (some ETIMEDOUT) := by
    intro e he
    obtain rfl : ETIMEDOUT = e := Option.some.inj he
    exact ⟨by decide, by decide⟩
  have hnone : SysWF none := fun e he => Option.noConfusion he
  have hc : statCanReturn ETIMEDOUT :=
    ⟨some ETIMEDOUT, none, none, hwf, hnone, hnone, rfl⟩
  exact (hall ETIMEDOUT hc (by decide)).1 rfl

/-- C6 amended: the two sentinels are distinct from each other, and
EUNKNOWN = 255 is distinct from every nonzero value either probe can return
under well-formed errnos; but ETIMEDOUT = 110 is itself a value the stat
probe can return, an intentional overloading of a real errno. -/
theorem sentinel_distinctness_amended :
    ETIMEDOUT ≠ EUNKNOWN ∧
    statCanReturn ETIMEDOUT ∧
    (∀ c, statCanReturn c → c ≠ 0 → c ≠ EUNKNOWN) ∧
    (∀ c, readdirCanReturn c → c ≠ 0 → c ≠ EUNKNOWN) := by
  refine ⟨by decide, ?_, ?_, ?_⟩
  · have hwf : SysWF (some ETIMEDOUT) := by
      intro e he
      obtain rfl : ETIMEDOUT = e := Option.some.inj he
      exact ⟨by decide, by decide⟩
    exact ⟨some ETIMEDOUT, none, none, hwf,
      fun e he => Option.noConfusion he, fun e he => Option.noConfusion he, rfl⟩
  · rintro c ⟨o, f, cl, wo, wf, wcl, heq⟩ hc
    have hb := probe3_return_bound o f cl c wo wf wcl heq hc
    simp only [EUNKNOWN]
    omega
  · rintro c ⟨o, r, cl, wo, wr, wcl, heq⟩ hc
    rw [readdir_eq_stat_shape] at heq
    have hb := probe3_return_bound o r cl c wo wr wcl heq hc
    simp only [EUNKNOWN]
    omega

/-- Witness for the amended C6 at the concrete probe failure errno 2
(ENOENT). -/
theorem sentinel_distinctness_amended_witness : (2 : Nat) ≠ EUNKNOWN :=
  sentinel_distinctness_amended.2.2.1 2
    ⟨some 2, none, none,
      (fun e he => by
        obtain rfl : 2 = e := Option.some.inj he
        exact ⟨by decide, by decide⟩),
      fun e he => Option.noConfusion he, fun e he => Option.noConfusion he, rfl⟩
    (by decide)

/-- C7 counterexample: when `fstat` fails (errno 5 here, with `open` having
succeeded), the source still executes the `close` step — line 153 — rather
than skipping the remaining steps; the `fstat` errno is what gets returned. -/
theorem stat_probe_skip_counterexample :
    (check_mountpoint_stat_steps none (some 5) none).1 = 5 ∧
    StatStep.closeStep ∈ (check_mountpoint_stat_steps none (some 5) none).2 :=
  ⟨rfl, by decide⟩

/-- C7 amended: the stat probe returns 0 iff open, fstat and close all
succeed; the first failing step's errno is the one returned; after an open
failure the remaining steps are skipped; after an fstat failure the close is
still invoked (its result discarded) before the fstat errno is returned. -/
theorem stat_probe_amended :
    ∀ (o f cl : SysRes), SysWF o → SysWF f → SysWF cl →
      ((check_mountpoint_stat o f cl = 0) ↔ (o = none ∧ f = none ∧ cl = none)) ∧
      (∀ e, o = some e →
        check_mountpoint_stat o f cl = e ∧
        (check_mountpoint_stat_steps o f cl).2 = [StatStep.openStep]) ∧
      (∀ e, o = none → f = some e →
        check_mountpoint_stat o f cl = e ∧
        (check_mountpoint_stat_steps o f cl).2 =
          [StatStep.openStep, StatStep.fstatStep, StatStep.closeStep]) ∧
      (∀ e, o = none → f = none → cl = some e → check_mountpoint_stat o f cl = e) := by
  intro o f cl wo wf wcl
  refine ⟨?_, ?_, ?_, ?_⟩
  · constructor
    · intro h0
      cases o with
      | some e =>
        simp [check_mountpoint_stat] at h0
        subst h0
        exact absurd (wo 0 rfl).1 (by decide)
      | none =>
        cases f with
        | some e =>
          simp [check_mountpoint_stat] at h0
          subst h0
          exact absurd (wf 0 rfl).1 (by decide)
        | none =>
          cases cl with
          | some e =>
            simp [check_mountpoint_stat] at h0
            subst h0
            exact absurd (wcl 0 rfl).1 (by decide)
          | none => exact ⟨rfl, rfl, rfl⟩
    · rintro ⟨rfl, rfl, rfl⟩
      rfl
  · rintro e rfl
    exact ⟨rfl, rfl⟩
  · rintro e rfl rfl
    exact ⟨rfl, rfl⟩
  · rintro e rfl rfl rfl
    rfl

/-- Witness for the amended C7 on the fstat-failure path with errno 5. -/
theorem stat_probe_amended_witness :
    check_mountpoint_stat none (some 5) none = 5 ∧
    (check_mountpoint_stat_steps none (some 5) none).2 =
      [StatStep.openStep, StatStep.fstatStep, StatStep.closeStep] :=
  (stat_probe_amended none (some 5) none
    (fun e he => Option.noConfusion he)
    (fun e he => by
      obtain rfl : 5 = e := Option.some.inj he
      exact ⟨by decide, by decide⟩)
    (fun e he => Option.noConfusion he)).2.2.1 5 rfl rfl

/-- C8: the read index at final translation — any value `wait_for_child` can
classify from a well-formed waitpid report — lies below ERRNO_MAX = 256; the
`-i` array write is in bounds exactly when the user-supplied index lies in
[0, 256); and `safe_atoi` itself accepts out-of-range indices such as 300, so
the write's precondition really is unchecked. -/
theorem exitcode_map_bounds :
    (∀ st, StatusWF st → classify_status st < ERRNO_MAX) ∧
    (∀ (m : Fin ERRNO_MAX → Nat) (i : Int) (v : Nat),
      (exitcode_map_write m i v).isSome ↔ (0 ≤ i ∧ i < (ERRNO_MAX : Int))) ∧
    (∃ v, safe_atoi (String.toList "300") = Except.ok v ∧
      ¬ (0 ≤ v ∧ v < (ERRNO_MAX : Int))) := by
  refine ⟨?_, ?_, ⟨300, rfl, by decide⟩⟩
  · intro st h
    cases st with
    | exited code =>
      simp only [StatusWF] at h
      simpa [classify_status, ERRNO_MAX] using h
    | signaled sig =>
      by_cases hs : sig = SIGKILL <;>
        simp [classify_status, hs, ETIMEDOUT, EUNKNOWN, ERRNO_MAX]
    | stopped sig => simp [classify_status, EUNKNOWN, ERRNO_MAX]
    | continued => simp [classify_status, EUNKNOWN, ERRNO_MAX]
  · intro m i v
    unfold exitcode_map_write
    split <;> simp_all

/-- Witness for C8: a concrete well-formed exit report classifies below 256,
and the write at index 300 is out of bounds. -/
theorem exitcode_map_bounds_witness :
    classify_status (WaitStatus.exited 7) < ERRNO_MAX ∧
    ¬ ((exitcode_map_write (fun _ => 0) 300 0).isSome ↔ True) := by
  constructor
  · exact exitcode_map_bounds.1 (WaitStatus.exited 7) (by show (7 : Nat) < 256; decide)
  · intro hiff
    have h300 := (exitcode_map_bounds.2.1 (fun _ => 0) 300 0).1 (hiff.2 trivial)
    exact absurd h300 (by decide)

/-- C9 counterexample: the string "0" is accepted by `safe_atoi` with value 0,
which is not a positive integer, so not every accepted `-t` argument is
positive. -/
theorem timeout_positive_counterexample :
    safe_atoi (String.toList "0") = Except.ok 0 ∧ ¬ (0 < (0 : Int)) :=
  ⟨rfl, by decide⟩

/-- C9 amended: the timeout defaults to 2; `safe_atoi` rejects with EINVAL
exactly the strings in which strtol consumes no digits or whose parsed value
lies outside the int range; every accepted string yields the strtol value,
an integer in [INT_MIN, INT_MAX] but not necessarily positive. -/
theorem timeout_parsing_amended :
    timeout_default = 2 ∧
    (∀ s : List Char,
      (safe_atoi s = Except.error EINVAL ↔
        ¬ ((strtol10 s).consumed = true ∧ INT_MIN ≤ (strtol10 s).value ∧
            (strtol10 s).value ≤ INT_MAX)) ∧
      (∀ v, safe_atoi s = Except.ok v →
        v = (strtol10 s).value ∧ INT_MIN ≤ v ∧ v ≤ INT_MAX)) := by
  refine ⟨rfl, fun s => ⟨?_, ?_⟩⟩
  · unfold safe_atoi
    split
    · rename_i h
      constructor
      · intro he
        exact absurd he (by simp)
      · intro hn
        exact absurd ⟨h.1, h.2.2.1, h.2.2.2⟩ hn
    · rename_i h
      simp only [true_iff]
      rintro ⟨hc, hlo, hhi⟩
      cases herange : (strtol10 s).erange with
      | false => exact h ⟨hc, herange, hlo, hhi⟩
      | true => exact strtol10_erange_out_of_int s herange ⟨hlo, hhi⟩
  · intro v
    unfold safe_atoi
    split
    · rename_i h
      intro hv
      obtain rfl : (strtol10 s).value = v := Except.ok.inj hv
      exact ⟨rfl, h.2.2.1, h.2.2.2⟩
    · intro hv
      exact absurd hv (by simp)

/-- Witness for the amended C9 on the accepted string "7". -/
theorem timeout_parsing_amended_witness :
    (7 : Int) = (strtol10 (String.toList "7")).value ∧
    INT_MIN ≤ (7 : Int) ∧ (7 : Int) ≤ INT_MAX :=
  (timeout_parsing_amended.2 (String.toList "7")).2 7 rfl

/-- C10: the empty `-m` argument (and the bare-comma one) is accepted by
`parse_check_method` with the empty method bitmask 0, although the default
when `-m` is omitted is both probes (mask 3); under mask 0 the worker runs no
probes at all and exits 0, so the run reports the mountpoint healthy without
any probing — contradicting the invariant that a run reaching probing has a
non-empty method set. -/
theorem empty_method_accepted :
    parse_check_method (String.toList "") = Except.ok 0 ∧
    parse_check_method (String.toList ",") = Except.ok 0 ∧
    default_check_method = 3 ∧
    (∀ env, check_mountpoint 0 env = (0, [])) ∧
    (∀ env, run_supervised [] 0 env = (0, [])) :=
  ⟨rfl, rfl, rfl, fun _ => rfl, fun _ => rfl⟩

end NfsCheck
